import Mathlib

/-!
Verification development for `m_find_macs_by_vlans.py` (securecrt-tools).

The script connects to a list of network devices, collects the MAC address
table of each, and reports MAC addresses found in a chosen VLAN range,
excluding addresses learned on each VLAN's spanning-tree uplink port.

The definitions below are a shallow embedding of the script:
pure computations become Lean functions, Python exceptions become
`Except PyErr`, and the side-effecting orchestration (`script_main`,
the device loop) becomes a function that returns the trace of externally
visible actions together with the produced file contents.

Helper functions that live in the `securecrt_tools` support package
(`utilities.long_int_name`, `utilities.expand_number_range`) are not part
of this file's source; they are modelled from the specification and marked
as such in their doc comments.
-/

namespace FindMacs

/-- A run of `n` space characters, as produced by Python `' ' * n`
(with `n` clamped at 0, matching `' ' * k = ''` for negative `k`). -/
def spaces (n : Nat) : String :=
  String.mk (List.replicate n ' ')

/-- Python `str.strip()`: remove leading and trailing whitespace. -/
def pyStrip (s : String) : String :=
  String.mk (((s.data.dropWhile (fun c => c.isWhitespace)).reverse.dropWhile
    (fun c => c.isWhitespace)).reverse)

/-- Python `str.lower()` for the ASCII range. -/
def pyLower (s : String) : String :=
  String.mk (s.data.map Char.toLower)

/-- Worker for `pySplitOn`: split a character list at every occurrence of
the separator, keeping empty parts, like Python `str.split(sep)`. -/
def splitOnCharGo (c : Char) : List Char → List Char → List (List Char)
  | [], acc => [acc.reverse]
  | x :: xs, acc =>
    if x = c then acc.reverse :: splitOnCharGo c xs []
    else splitOnCharGo c xs (x :: acc)

/-- Python `s.split(sep)` for a one-character separator `sep`. -/
def pySplitOn (c : Char) (s : String) : List String :=
  (splitOnCharGo c s.data []).map String.mk

/-- Numeric value of a list of decimal digit characters. -/
def digitsVal (l : List Char) : Nat :=
  l.foldl (fun a c => a * 10 + (c.toNat - 48)) 0

/-- Python `int(s)`: strip whitespace, allow one optional sign, then
decimal digits; anything else raises `ValueError`, modelled as `none`. -/
def pyInt (s : String) : Option Int :=
  match (pyStrip s).data with
  | [] => none
  | '-' :: rest =>
    if rest ≠ [] ∧ rest.all (fun c => c.isDigit) then
      some (-(digitsVal rest : Int))
    else none
  | '+' :: rest =>
    if rest ≠ [] ∧ rest.all (fun c => c.isDigit) then
      some (digitsVal rest : Int)
    else none
  | l =>
    if l.all (fun c => c.isDigit) then some (digitsVal l : Int) else none

/-- Parse a token as a plain non-negative decimal integer. -/
def pyNat (s : String) : Option Nat :=
  match (pyStrip s).data with
  | [] => none
  | l => if l.all (fun c => c.isDigit) then some (digitsVal l) else none

/-- The Python exceptions that can escape the pure fragments of the script. -/
inductive PyErr where
  /-- `scripts.ScriptError`, raised when launched in a connected tab. -/
  | scriptError : PyErr
  /-- Python `IndexError` (list index out of range). -/
  | indexError : PyErr
  /-- Python `ValueError` (bad `int()` conversion). -/
  | valueError : PyErr
  /-- `MalformedRangeError` from the range expander. -/
  | malformedRangeError : PyErr
deriving DecidableEq

/-- `true` exactly when an `Except` value carries a result, not an error. -/
def exceptOk {ε α : Type} : Except ε α → Bool
  | Except.ok _ => true
  | Except.error _ => false

/-- First-match lookup in a string-keyed association list. -/
def lookupStrAssoc : List (String × String) → String → Option String
  | [], _ => none
  | (k', v) :: rest, k => if k' = k then some v else lookupStrAssoc rest k

/-- Abbreviation table for Cisco interface names: short and long spellings
of a leading alphabetic prefix, mapped to the canonical long form. -/
def intfTable : List (String × String) :=
  [("gi", "gigabitethernet"), ("gigabitethernet", "gigabitethernet"),
   ("fa", "fastethernet"), ("fastethernet", "fastethernet"),
   ("te", "tengigabitethernet"), ("tengigabitethernet", "tengigabitethernet"),
   ("eth", "ethernet"), ("ethernet", "ethernet")]

/-- Modelled from the spec: `utilities.long_int_name` (the Interface Name
Normalizer, spec 4.2) is in the `securecrt_tools` support package, which is
not part of this source file.  Per the spec it returns the canonical
long-form interface name, normalized to a single case (lower-case) for
equality checks, with whitespace trimmed; unknown prefixes pass through
unchanged except for trimming. -/
def long_int_name (s : String) : String :=
  let t := pyStrip s
  let p := t.data.takeWhile (fun c => c.isAlpha)
  let rest := t.data.dropWhile (fun c => c.isAlpha)
  match lookupStrAssoc intfTable (String.mk (p.map Char.toLower)) with
  | some long => long ++ String.mk rest
  | none => t

/-- One parsed row of `show spanning-tree root` output.  The TextFSM
template yields a fixed-arity row; the script reads only index 0
(the vlan label, e.g. `VLAN0010`) and index 6 (the root port). -/
structure StpRootEntry where
  vlanLabel : String
  rootPort : String
deriving DecidableEq

/-- One parsed row of `show mac address-table` output: the script reads
index 0 (vlan), index 1 (mac) and index 2 (interface). -/
structure MacEntry where
  vlan : String
  mac : String
  intf : String
deriving DecidableEq

/-- Line 155 of the script: `int(vlan_string.split("N")[1])`.
A label without `"N"` raises `IndexError`; a non-numeric segment after the
first `"N"` raises `ValueError`. -/
def extractVlanFromLabel (lbl : String) : Except PyErr Int :=
  match (pySplitOn 'N' lbl)[1]? with
  | none => Except.error PyErr.indexError
  | some seg =>
    match pyInt seg with
    | some n => Except.ok n
    | none => Except.error PyErr.valueError

/-- Python dict assignment `m[k] = v` on an association list:
replace the existing binding in place, or append a new one. -/
def insertAssoc : List (Int × String) → Int → String → List (Int × String)
  | [], k, v => [(k, v)]
  | (k', v') :: rest, k, v =>
    if k' = k then (k, v) :: rest else (k', v') :: insertAssoc rest k v

/-- Python dict lookup `m[k]` on an association list (first match). -/
def lookupAssoc : List (Int × String) → Int → Option String
  | [], _ => none
  | (k', v) :: rest, k => if k' = k then some v else lookupAssoc rest k

/-- Lines 153-158 of the script: the uplink-resolver loop over the parsed
spanning-tree-root rows, building `exclude_ports`.  An exception raised by
the vlan extraction propagates (there is no handler in the loop). -/
def buildUplinkMapGo (acc : List (Int × String)) :
    List StpRootEntry → Except PyErr (List (Int × String))
  | [] => Except.ok acc
  | e :: rest =>
    match extractVlanFromLabel e.vlanLabel with
    | Except.error err => Except.error err
    | Except.ok vlan =>
      let uplink := pyStrip (long_int_name e.rootPort)
      buildUplinkMapGo
        (if uplink ≠ "" then insertAssoc acc vlan uplink else acc) rest

/-- The uplink resolver: `exclude_ports` built from the parsed
`show spanning-tree root` rows (lines 141, 153-158). -/
def buildUplinkMap (entries : List StpRootEntry) :
    Except PyErr (List (Int × String)) :=
  buildUplinkMapGo [] entries

/-- Lines 178-194 of the script: the MAC-table filter loop, carrying the
`results` accumulator exactly as the Python loop mutates `results`. -/
def filterMacsGo (vlan_set : List Int) (exclude_ports : List (Int × String))
    (results : List MacEntry) : List MacEntry → List MacEntry
  | [] => results
  | e :: rest =>
    match pyInt e.vlan with
    | none => filterMacsGo vlan_set exclude_ports results rest
    | some vlan =>
      if vlan ∈ vlan_set then
        let uplink := (lookupAssoc exclude_ports vlan).getD ""
        let mac_intf := pyLower (long_int_name e.intf)
        let uplink_intf := pyLower (pyStrip uplink)
        if mac_intf = uplink_intf then
          filterMacsGo vlan_set exclude_ports results rest
        else
          filterMacsGo vlan_set exclude_ports (results ++ [e]) rest
      else filterMacsGo vlan_set exclude_ports results rest

/-- The MAC-table filter: keep entries of the target VLANs not learned on
that VLAN's uplink port (lines 178-194). -/
def filterMacs (fsm_results : List MacEntry) (vlan_set : List Int)
    (exclude_ports : List (Int × String)) : List MacEntry :=
  filterMacsGo vlan_set exclude_ports [] fsm_results

/-- The filter's keep-condition, written as a single predicate following
the specification's wording (spec 4.5): the vlan field parses as an
integer in the target set, and the normalized interface differs
(case-insensitively) from that vlan's uplink (empty string when absent). -/
def macKeepSpec (vlan_set : List Int) (exclude_ports : List (Int × String))
    (e : MacEntry) : Bool :=
  match pyInt e.vlan with
  | none => false
  | some vlan =>
    decide (vlan ∈ vlan_set) &&
      (pyLower (long_int_name e.intf) !=
        pyLower (pyStrip ((lookupAssoc exclude_ports vlan).getD "")))

/-- Equality of `Except` values is decidable when both components' are. -/
instance {ε α : Type} [DecidableEq ε] [DecidableEq α] : DecidableEq (Except ε α) := fun a b =>
  match a, b with
  | Except.ok x, Except.ok y =>
    if h : x = y then isTrue (by rw [h]) else isFalse (by intro hc; cases hc; exact h rfl)
  | Except.error x, Except.error y =>
    if h : x = y then isTrue (by rw [h]) else isFalse (by intro hc; cases hc; exact h rfl)
  | Except.ok _, Except.error _ => isFalse (by intro hc; cases hc)
  | Except.error _, Except.ok _ => isFalse (by intro hc; cases hc)

/-- Observable session interactions of the per-device collector, in order. -/
inductive Event where
  /-- `session.start_cisco_session()`: enter automation mode. -/
  | startSession : Event
  /-- `session.get_command_output(cmd)`. -/
  | sendCmd : String → Event
  /-- `session.end_cisco_session()`: restore the terminal parameters. -/
  | endSession : Event
deriving DecidableEq

/-- The data a connected device presents to the collector.  The TextFSM
template store and parser live in the external `securecrt_tools` package
(spec 4.3 treats them as an opaque `apply(text) -> records` capability),
so the device model carries the parsed rows each command's output yields:
`stpRecords` for `show spanning-tree root`, `macPrimary` for the primary
MAC-table command and `macFallback` for the legacy fallback command. -/
structure Device where
  hostname : String
  os : String
  stpRecords : List StpRootEntry
  macPrimary : List MacEntry
  macFallback : List MacEntry
deriving DecidableEq

/-- Command sent at line 149. -/
def stpCmd : String := "show spanning-tree root"

/-- Primary MAC-table command (line 166). -/
def macCmdPrimary : String := "show mac address-table"

/-- Legacy fallback MAC-table command (line 172). -/
def macCmdFallback : String := "show mac-address-table dynamic"

/-- Lines 127-199: `per_device_work`.  Returns the trace of session
interactions and either `(hostname, filtered results)` or the Python
exception that escaped.  The template selections at lines 144-147 and
161-164 have no observable effect here (the parse results are part of
`Device`); note lines 144-147 pick the same template on both branches.
An exception raised by the uplink-resolver loop propagates immediately:
there is no `try`/`finally`, so `end_cisco_session` is skipped. -/
def per_device_work (dev : Device) (vlan_set : List Int) :
    List Event × Except PyErr (String × List MacEntry) :=
  match buildUplinkMap dev.stpRecords with
  | Except.error e =>
    ([Event.startSession, Event.sendCmd stpCmd], Except.error e)
  | Except.ok exclude_ports =>
    if dev.os = "IOS" ∧ dev.macPrimary.length = 1 then
      ([Event.startSession, Event.sendCmd stpCmd, Event.sendCmd macCmdPrimary,
        Event.sendCmd macCmdFallback, Event.endSession],
       Except.ok (dev.hostname, filterMacs dev.macFallback vlan_set exclude_ports))
    else
      ([Event.startSession, Event.sendCmd stpCmd, Event.sendCmd macCmdPrimary,
        Event.endSession],
       Except.ok (dev.hostname, filterMacs dev.macPrimary vlan_set exclude_ports))

/-- The condition under which the collector issues the legacy fallback
command: the uplink resolver raised nothing, the OS family is IOS, and the
primary parse produced exactly one record (line 171). -/
def wantsFallback (dev : Device) : Bool :=
  exceptOk (buildUplinkMap dev.stpRecords) &&
    (dev.os == "IOS") && (dev.macPrimary.length == 1)

/-- How one device behaves when the batch loop reaches it: the connect
attempt raises `ConnectError`, the session work raises `InteractionError`
or `UnsupportedOSError`, or the device connects and presents its data. -/
inductive DevBehavior where
  | connectFail : String → String → DevBehavior
  | interactionFail : String → String → DevBehavior
  | unsupportedOS : String → String → DevBehavior
  | works : Device → DevBehavior
deriving DecidableEq

/-- Hostname the loop uses for a device (the inventory's `Hostname`). -/
def DevBehavior.hostname : DevBehavior → String
  | DevBehavior.connectFail h _ => h
  | DevBehavior.interactionFail h _ => h
  | DevBehavior.unsupportedOS h _ => h
  | DevBehavior.works dev => dev.hostname

/-- Failure-log line written at line 113. -/
def connectFailLine (h msg : String) : String :=
  "<M_SCRIPT> Connect to " ++ h ++ " failed: " ++ pyStrip msg ++ "\n"

/-- Failure-log line written at line 117. -/
def interactionFailLine (h msg : String) : String :=
  "<M_SCRIPT> Failure on " ++ h ++ ": " ++ pyStrip msg ++ "\n"

/-- Failure-log line written at line 121. -/
def unsupportedOSLine (h msg : String) : String :=
  "<M_SCRIPT> Unsupported OS on " ++ h ++ ": " ++ pyStrip msg ++ "\n"

/-- Concatenate a list of strings (Python `"".join`). -/
def strJoin : List String → String
  | [] => ""
  | s :: rest => s ++ strJoin rest

/-- One formatted table row of the report (lines 103-108): each column is
written and then padded with spaces to widths 8 and 20; the last column is
unpadded; `write("{}\n".format(...))` appends the newline. -/
def macRow (e : MacEntry) : String :=
  e.vlan ++ spaces (8 - e.vlan.length) ++ e.mac ++ spaces (20 - e.mac.length)
    ++ e.intf ++ "\n"

/-- The table header literal written at line 101. -/
def tableHeaderLine : String := "VLAN    MAC                  PORT"

/-- One device's report section (lines 100-109): device header, table
header, the rows, then the `write("\n\n")` separator. -/
def deviceSection (h : String) (macs : List MacEntry) : String :=
  "### Device: " ++ h ++ " ###\n" ++ tableHeaderLine ++ "\n"
    ++ strJoin (macs.map macRow) ++ "\n\n"

/-- The report header written at line 77. -/
def reportHeader (num_string : String) : String :=
  "MAC ADDRESS SEARCH IN VLANS: " ++ num_string ++ "\n\n"

/-- Externally visible orchestrator actions, in order. -/
inductive Action where
  /-- `script.import_device_list()` (line 57). -/
  | importDeviceList : Action
  /-- `script.prompt_window(...)` (line 65). -/
  | promptWindow : Action
  /-- `session.create_output_filename(...)` / opening the report
  (lines 73, 75). -/
  | createOutputFile : Action
  /-- `script.connect(hostname, ...)` (line 95). -/
  | connect : String → Action
  /-- `output_file.flush()` (line 110). -/
  | flush : Action
deriving DecidableEq

/-- Lines 79-122: the device-connect loop.  `acts` is the action trace so
far, `report` the report-file content, `flog` the failure-log lines.
`ConnectError`, `InteractionError` and `UnsupportedOSError` are the only
exceptions caught (lines 111-122): each appends one log line and the loop
continues.  Any other exception escaping `per_device_work` propagates,
abandoning the rest of the inventory. -/
def runBatchGo (vlan_set : List Int) (acts : List Action) (report : String)
    (flog : List String) :
    List DevBehavior → List Action × Except PyErr (String × List String)
  | [] => (acts, Except.ok (report, flog))
  | b :: rest =>
    match b with
    | DevBehavior.connectFail h msg =>
      runBatchGo vlan_set (acts ++ [Action.connect h]) report
        (flog ++ [connectFailLine h msg]) rest
    | DevBehavior.interactionFail h msg =>
      runBatchGo vlan_set (acts ++ [Action.connect h]) report
        (flog ++ [interactionFailLine h msg]) rest
    | DevBehavior.unsupportedOS h msg =>
      runBatchGo vlan_set (acts ++ [Action.connect h]) report
        (flog ++ [unsupportedOSLine h msg]) rest
    | DevBehavior.works dev =>
      match (per_device_work dev vlan_set).2 with
      | Except.error e =>
        (acts ++ [Action.connect dev.hostname], Except.error e)
      | Except.ok (h, macs) =>
        if macs.isEmpty then
          runBatchGo vlan_set (acts ++ [Action.connect dev.hostname])
            report flog rest
        else
          runBatchGo vlan_set
            (acts ++ [Action.connect dev.hostname, Action.flush])
            (report ++ deviceSection h macs) flog rest

/-- The batch loop over the whole inventory, started with the report
header already written (line 77). -/
def runBatch (devices : List DevBehavior) (vlan_set : List Int)
    (num_string : String) :
    List Action × Except PyErr (String × List String) :=
  runBatchGo vlan_set [] (reportHeader num_string) [] devices

/-- Modelled from the spec: `utilities.expand_number_range` (the Range
Expander, spec 4.1) is in the `securecrt_tools` support package, not in
this source file.  One comma-separated token: a single non-negative
integer, or `lo-hi` with `lo <= hi`; anything else is a
`MalformedRangeError`. -/
def parseRangeToken (t : String) : Except PyErr (List Int) :=
  match pySplitOn '-' t with
  | [a] =>
    match pyNat a with
    | some n => Except.ok [(n : Int)]
    | none => Except.error PyErr.malformedRangeError
  | [a, b] =>
    match pyNat a, pyNat b with
    | some lo, some hi =>
      if lo ≤ hi then Except.ok ((List.range' lo (hi - lo + 1)).map Int.ofNat)
      else Except.error PyErr.malformedRangeError
    | _, _ => Except.error PyErr.malformedRangeError
  | _ => Except.error PyErr.malformedRangeError

/-- Worker for `expand_number_range`: expand each token, concatenating. -/
def expandGo : List String → Except PyErr (List Int)
  | [] => Except.ok []
  | t :: rest =>
    match parseRangeToken t with
    | Except.error e => Except.error e
    | Except.ok xs =>
      match expandGo rest with
      | Except.error e => Except.error e
      | Except.ok ys => Except.ok (xs ++ ys)

/-- Modelled from the spec: the Range Expander's entry point (spec 4.1);
empty input yields an empty set. -/
def expand_number_range (s : String) : Except PyErr (List Int) :=
  if pyStrip s = "" then Except.ok [] else expandGo (pySplitOn ',' s)

/-- Python truthiness of an optional string: `None` and `""` are falsy. -/
def pyFalsyStr : Option String → Bool
  | none => true
  | some s => s == ""

/-- Lines 85-91: per-device proxy resolution.  The inventory field
`Proxy Session` may be missing (`KeyError` gives `None`) or empty; both
are falsy in `if not proxy and use_proxy`, in which case the configured
default proxy is substituted when `use_proxy` is set. -/
def resolveProxy (deviceProxy : Option String) (use_proxy : Bool)
    (default_proxy : String) : Option String :=
  if pyFalsyStr deviceProxy && use_proxy then some default_proxy
  else deviceProxy

/-- The environment `script_main` runs in: whether the launch tab is
already connected, the imported inventory, and the operator's range
string (empty when the prompt is cancelled or left blank). -/
structure Env where
  connected : Bool
  deviceList : List DevBehavior
  num_string : String

/-- Lines 31-122: `script_main`.  Returns the trace of actions and either
the produced `(report, failure log)` (or `none` on the early returns at
lines 58-59 and 67-68), or the exception that escaped. -/
def script_main (env : Env) :
    List Action × Except PyErr (Option (String × List String)) :=
  if env.connected then
    ([], Except.error PyErr.scriptError)
  else if env.deviceList.isEmpty then
    ([Action.importDeviceList], Except.ok none)
  else if env.num_string = "" then
    ([Action.importDeviceList, Action.promptWindow], Except.ok none)
  else
    match expand_number_range env.num_string with
    | Except.error e =>
      ([Action.importDeviceList, Action.promptWindow], Except.error e)
    | Except.ok vlan_list =>
      let r := runBatch env.deviceList vlan_list env.num_string
      ([Action.importDeviceList, Action.promptWindow, Action.createOutputFile,
        Action.createOutputFile] ++ r.1,
       match r.2 with
       | Except.error e => Except.error e
       | Except.ok res => Except.ok (some res))

/-- Concatenate a list of lists. -/
def listJoin {α : Type} : List (List α) → List α
  | [] => []
  | l :: rest => l ++ listJoin rest

/-- Left-justify a string to width `w` with spaces (Python `ljust`). -/
def ljust (w : Nat) (s : String) : String :=
  s ++ spaces (w - s.length)

/-- One report table row as the specification describes it: VLAN and MAC
columns left-justified to widths 8 and 20, the port column unpadded. -/
def rowLine (e : MacEntry) : String :=
  ljust 8 e.vlan ++ ljust 20 e.mac ++ e.intf

/-- The lines of one device's report section as the code produces them:
device header line, table header line, one row per matched entry in
order, then two blank separator lines. -/
def sectionLines (h : String) (macs : List MacEntry) : List String :=
  ("### Device: " ++ h ++ " ###") :: tableHeaderLine
    :: (macs.map rowLine ++ ["", ""])

/-- The lines of one device's report section exactly as the claim under
scrutiny words them, with a single blank separator line. -/
def sectionLinesClaim (h : String) (macs : List MacEntry) : List String :=
  ("### Device: " ++ h ++ " ###") :: tableHeaderLine
    :: (macs.map rowLine ++ [""])

/-- A device behavior the batch loop survives: any of the three caught
failure kinds, or a connected device whose collector run raises nothing. -/
def behaviorOk (vlan_set : List Int) : DevBehavior → Bool
  | DevBehavior.works dev => exceptOk (per_device_work dev vlan_set).2
  | _ => true

/-- The failure-log line a device behavior contributes, if any. -/
def failureLine : DevBehavior → Option String
  | DevBehavior.connectFail h msg => some (connectFailLine h msg)
  | DevBehavior.interactionFail h msg => some (interactionFailLine h msg)
  | DevBehavior.unsupportedOS h msg => some (unsupportedOSLine h msg)
  | DevBehavior.works _ => none

/-- The orchestrator actions one device behavior contributes: a connect
attempt always, plus a report flush when the device yields matches. -/
def deviceActs (vlan_set : List Int) : DevBehavior → List Action
  | DevBehavior.connectFail h _ => [Action.connect h]
  | DevBehavior.interactionFail h _ => [Action.connect h]
  | DevBehavior.unsupportedOS h _ => [Action.connect h]
  | DevBehavior.works dev =>
    match (per_device_work dev vlan_set).2 with
    | Except.error _ => [Action.connect dev.hostname]
    | Except.ok (_, macs) =>
      if macs.isEmpty then [Action.connect dev.hostname]
      else [Action.connect dev.hostname, Action.flush]

/-- The report text one device behavior contributes: a section exactly
when the device succeeds with a non-empty match list. -/
def deviceReport (vlan_set : List Int) : DevBehavior → String
  | DevBehavior.works dev =>
    match (per_device_work dev vlan_set).2 with
    | Except.error _ => ""
    | Except.ok (h, macs) => if macs.isEmpty then "" else deviceSection h macs
  | _ => ""

/-- A device whose spanning-tree vlan label has no `"N"`, so the vlan
extraction at line 155 raises `IndexError`. -/
def devC1bad : Device :=
  ⟨"badsw", "IOS", [⟨"garbage", "Gi1/0/1"⟩], [], []⟩

/-- A healthy device with one matching MAC entry. -/
def devC1ok : Device :=
  ⟨"oksw", "NXOS", [⟨"VLAN0010", "Gi1/0/1"⟩],
    [⟨"10", "aaaa.bbbb.cccc", "Fa0/2"⟩], []⟩

/-- A device whose uplink-resolver pass raises, for the automation-mode
claim. -/
def devC2bad : Device :=
  ⟨"swc2bad", "IOS", [⟨"mislabeled", "Gi1/0/1"⟩], [], []⟩

/-- A healthy device for the automation-mode claim. -/
def devC2ok : Device :=
  ⟨"swc2ok", "NXOS", [⟨"VLAN0020", "Gi1/0/2"⟩],
    [⟨"20", "bbbb.cccc.dddd", "Fa0/3"⟩], []⟩

/-- An IOS device whose primary MAC-table parse yields zero records. -/
def devC3empty : Device :=
  ⟨"swc3", "IOS", [], [], [⟨"10", "cccc.dddd.eeee", "Fa0/4"⟩]⟩

/-- A device with a spanning-tree record whose vlan label has no digits
(and no `"N"`). -/
def devC5bad : Device :=
  ⟨"swc5", "IOS", [⟨"garbled", "Gi1/0/1"⟩], [], []⟩

/-- A device whose second spanning-tree record has a non-numeric segment
after `"N"`, so extraction raises `ValueError`. -/
def devC5w : Device :=
  ⟨"swc5w", "IOS", [⟨"VLAN0010", "Gi1/0/1"⟩, ⟨"VLANxyz", ""⟩], [], []⟩

/-- A healthy device with one matching MAC entry, for the report claim. -/
def devC6 : Device :=
  ⟨"swc6", "NXOS", [⟨"VLAN0010", "Gi1/0/1"⟩],
    [⟨"10", "dddd.eeee.ffff", "Fa0/2"⟩], []⟩

theorem strAppend_empty_left (s : String) : "" ++ s = s := by
cases s
rfl

theorem strAppend_empty_right (s : String) : s ++ "" = s := by
cases s with
| mk l => show String.mk (l ++ []) = String.mk l; rw [List.append_nil]

theorem strAppend_assoc (a b c : String) : a ++ b ++ c = a ++ (b ++ c) := by
cases a with
| mk la =>
  cases b with
  | mk lb =>
    cases c with
    | mk lc =>
      show String.mk (la ++ lb ++ lc) = String.mk (la ++ (lb ++ lc))
      rw [List.append_assoc]

theorem strJoin_append (xs ys : List String) :
    strJoin (xs ++ ys) = strJoin xs ++ strJoin ys := by
induction xs with
| nil => simp [strJoin, strAppend_empty_left]
| cons s rest ih => simp [strJoin, ih, strAppend_assoc]

theorem filterMacsGo_eq_filter (vlan_set : List Int)
    (exclude_ports : List (Int × String)) :
    ∀ (l : List MacEntry) (acc : List MacEntry),
      filterMacsGo vlan_set exclude_ports acc l
        = acc ++ l.filter (macKeepSpec vlan_set exclude_ports) := by
intro l
induction l with
| nil => intro acc; simp [filterMacsGo]
| cons e rest ih =>
  intro acc
  cases hpy : pyInt e.vlan with
  | none =>
    simp [filterMacsGo, hpy, ih, List.filter_cons, macKeepSpec]
  | some vlan =>
    by_cases hv : vlan ∈ vlan_set
    · by_cases heq : pyLower (long_int_name e.intf)
          = pyLower (pyStrip ((lookupAssoc exclude_ports vlan).getD ""))
      · simp [filterMacsGo, hpy, hv, heq, ih, List.filter_cons, macKeepSpec]
      · simp [filterMacsGo, hpy, hv, heq, ih, List.filter_cons, macKeepSpec]
    · simp [filterMacsGo, hpy, hv, ih, List.filter_cons, macKeepSpec]

theorem lookupAssoc_insert_self :
    ∀ (m : List (Int × String)) (k : Int) (v : String),
      lookupAssoc (insertAssoc m k v) k = some v := by
intro m k v
induction m with
| nil => simp [insertAssoc, lookupAssoc]
| cons p rest ih =>
  by_cases h : p.1 = k
  · simp [insertAssoc, h, lookupAssoc]
  · simp [insertAssoc, h, lookupAssoc, ih]

theorem insertAssoc_mem :
    ∀ (m : List (Int × String)) (k : Int) (v : String) (p : Int × String),
      p ∈ insertAssoc m k v → p ∈ m ∨ p = (k, v) := by
intro m k v
induction m with
| nil => intro p hp; simp [insertAssoc] at hp; right; exact hp
| cons q rest ih =>
  intro p hp
  by_cases h : q.1 = k
  · simp [insertAssoc, h] at hp
    rcases hp with hp | hp
    · right; simp [hp]
    · left; simp [hp]
  · simp [insertAssoc, h] at hp
    rcases hp with hp | hp
    · left; simp [hp]
    · rcases ih p hp with h2 | h2
      · left; simp [h2]
      · right; exact h2

theorem insertAssoc_keys :
    ∀ (m : List (Int × String)) (k : Int) (v : String) (x : Int),
      x ∈ (insertAssoc m k v).map Prod.fst → x = k ∨ x ∈ m.map Prod.fst := by
intro m k v
induction m with
| nil => intro x hx; simp [insertAssoc] at hx; left; exact hx
| cons q rest ih =>
  intro x hx
  by_cases h : q.1 = k
  · simp [insertAssoc, h] at hx
    rcases hx with hx | hx
    · left; exact hx
    · right; simp [hx]
  · simp [insertAssoc, h] at hx
    rcases hx with hx | hx
    · right; simp [hx]
    · rcases ih x (by simpa using hx) with h2 | h2
      · left; exact h2
      · right; simp [h2]

theorem insertAssoc_nodup :
    ∀ (m : List (Int × String)) (k : Int) (v : String),
      (m.map Prod.fst).Nodup → ((insertAssoc m k v).map Prod.fst).Nodup := by
intro m k v
induction m with
| nil => intro _; simp [insertAssoc]
| cons q rest ih =>
  cases q with
  | mk k2 v2 =>
    intro hnd
    rw [List.map_cons, List.nodup_cons] at hnd
    by_cases h : k2 = k
    · subst h
      have hins : insertAssoc ((k2, v2) :: rest) k2 v = (k2, v) :: rest := by
        simp [insertAssoc]
      rw [hins, List.map_cons, List.nodup_cons]
      exact ⟨hnd.1, hnd.2⟩
    · simp only [insertAssoc, if_neg h, List.map_cons, List.nodup_cons]
      refine ⟨?_, ih hnd.2⟩
      intro hc
      rcases insertAssoc_keys rest k v k2 hc with h2 | h2
      · exact h h2
      · exact hnd.1 h2

theorem buildUplinkMapGo_append (ys : List StpRootEntry) :
    ∀ (xs : List StpRootEntry) (acc : List (Int × String)),
      buildUplinkMapGo acc (xs ++ ys)
        = match buildUplinkMapGo acc xs with
          | Except.ok m => buildUplinkMapGo m ys
          | Except.error e => Except.error e := by
intro xs
induction xs with
| nil => intro acc; simp [buildUplinkMapGo]
| cons r rest ih =>
  intro acc
  cases hx : extractVlanFromLabel r.vlanLabel with
  | error e2 => simp [buildUplinkMapGo, hx]
  | ok v => simp [buildUplinkMapGo, hx, ih]

theorem buildUplinkMapGo_error (err : PyErr) :
    ∀ (pre : List StpRootEntry) (e : StpRootEntry) (post : List StpRootEntry)
      (acc : List (Int × String)),
      (∀ r ∈ pre, exceptOk (extractVlanFromLabel r.vlanLabel) = true) →
      extractVlanFromLabel e.vlanLabel = Except.error err →
      buildUplinkMapGo acc (pre ++ e :: post) = Except.error err := by
intro pre
induction pre with
| nil => intro e post acc _ he; simp [buildUplinkMapGo, he]
| cons r rest ih =>
  intro e post acc hall he
  have hr : exceptOk (extractVlanFromLabel r.vlanLabel) = true :=
    hall r (by simp)
  cases hx : extractVlanFromLabel r.vlanLabel with
  | error e2 => rw [hx] at hr; simp [exceptOk] at hr
  | ok v =>
    simp only [List.cons_append, buildUplinkMapGo, hx]
    exact ih e post _ (fun r2 hm => hall r2 (by simp [hm])) he

theorem buildUplinkMapGo_sound :
    ∀ (es : List StpRootEntry) (acc m : List (Int × String)),
      buildUplinkMapGo acc es = Except.ok m →
      ∀ v u, (v, u) ∈ m →
        (v, u) ∈ acc ∨
          (u ≠ "" ∧ ∃ r, r ∈ es ∧
            extractVlanFromLabel r.vlanLabel = Except.ok v ∧
            pyStrip (long_int_name r.rootPort) = u) := by
intro es
induction es with
| nil =>
  intro acc m hm v u hvu
  simp [buildUplinkMapGo] at hm
  left; rw [← hm] at hvu; exact hvu
| cons r rest ih =>
  intro acc m hm v u hvu
  cases hx : extractVlanFromLabel r.vlanLabel with
  | error e2 => rw [buildUplinkMapGo, hx] at hm; cases hm
  | ok v0 =>
    simp only [buildUplinkMapGo, hx] at hm
    by_cases hup : pyStrip (long_int_name r.rootPort) ≠ ""
    · rw [if_pos hup] at hm
      rcases ih _ m hm v u hvu with hin | hin
      · rcases insertAssoc_mem acc v0 (pyStrip (long_int_name r.rootPort))
            (v, u) hin with h2 | h2
        · left; exact h2
        · right
          have hv : v = v0 := congrArg Prod.fst h2
          have hu : u = pyStrip (long_int_name r.rootPort) :=
            congrArg Prod.snd h2
          refine ⟨by rw [hu]; exact hup, r, by simp, by rw [hv]; exact hx,
            by rw [hu]⟩
      · right
        rcases hin with ⟨hne, r2, hr2, hx2, hs2⟩
        exact ⟨hne, r2, by simp [hr2], hx2, hs2⟩
    · rw [if_neg hup] at hm
      rcases ih _ m hm v u hvu with hin | hin
      · left; exact hin
      · right
        rcases hin with ⟨hne, r2, hr2, hx2, hs2⟩
        exact ⟨hne, r2, by simp [hr2], hx2, hs2⟩

theorem buildUplinkMapGo_nodup :
    ∀ (es : List StpRootEntry) (acc m : List (Int × String)),
      (acc.map Prod.fst).Nodup → buildUplinkMapGo acc es = Except.ok m →
      (m.map Prod.fst).Nodup := by
intro es
induction es with
| nil =>
  intro acc m hacc hm
  simp [buildUplinkMapGo] at hm
  rw [← hm]; exact hacc
| cons r rest ih =>
  intro acc m hacc hm
  cases hx : extractVlanFromLabel r.vlanLabel with
  | error e2 => rw [buildUplinkMapGo, hx] at hm; cases hm
  | ok v0 =>
    simp only [buildUplinkMapGo, hx] at hm
    by_cases hup : pyStrip (long_int_name r.rootPort) ≠ ""
    · rw [if_pos hup] at hm
      exact ih _ m (insertAssoc_nodup acc v0 _ hacc) hm
    · rw [if_neg hup] at hm
      exact ih _ m hacc hm

theorem runBatchGo_ok (vlan_set : List Int) :
    ∀ (devices : List DevBehavior),
      devices.all (behaviorOk vlan_set) = true →
      ∀ (acts : List Action) (report : String) (flog : List String),
        runBatchGo vlan_set acts report flog devices
          = (acts ++ listJoin (devices.map (deviceActs vlan_set)),
             Except.ok
               (report ++ strJoin (devices.map (deviceReport vlan_set)),
                flog ++ devices.filterMap failureLine)) := by
intro devices
induction devices with
| nil =>
  intro _ acts report flog
  simp [runBatchGo, listJoin, strJoin, strAppend_empty_right]
| cons b rest ih =>
  intro hall acts report flog
  rw [List.all_cons, Bool.and_eq_true] at hall
  cases b with
  | connectFail h msg =>
    rw [runBatchGo, ih hall.2]
    simp [deviceActs, deviceReport, failureLine, listJoin, strJoin,
      List.filterMap_cons, strAppend_empty_left, strAppend_assoc]
  | interactionFail h msg =>
    rw [runBatchGo, ih hall.2]
    simp [deviceActs, deviceReport, failureLine, listJoin, strJoin,
      List.filterMap_cons, strAppend_empty_left, strAppend_assoc]
  | unsupportedOS h msg =>
    rw [runBatchGo, ih hall.2]
    simp [deviceActs, deviceReport, failureLine, listJoin, strJoin,
      List.filterMap_cons, strAppend_empty_left, strAppend_assoc]
  | works dev =>
    have hb : exceptOk (per_device_work dev vlan_set).2 = true := by
      have := hall.1
      simpa [behaviorOk] using this
    cases hres : (per_device_work dev vlan_set).2 with
    | error e => rw [hres] at hb; simp [exceptOk] at hb
    | ok pr =>
      cases pr with
      | mk h macs =>
        by_cases hm : macs.isEmpty
        · rw [runBatchGo]
          simp only [hres, hm, if_pos rfl, if_true]
          rw [ih hall.2]
          simp [deviceActs, deviceReport, failureLine, listJoin, strJoin,
            hres, hm, List.filterMap_cons, strAppend_empty_left,
            strAppend_assoc]
        · rw [runBatchGo]
          simp only [hres]
          rw [if_neg (by simpa using hm)]
          rw [ih hall.2]
          simp [deviceActs, deviceReport, failureLine, listJoin, strJoin,
            hres, hm, List.filterMap_cons, strAppend_empty_left,
            strAppend_assoc]

theorem lookupAssoc_insert_ne :
    ∀ (m : List (Int × String)) (k k2 : Int) (v : String), k2 ≠ k →
      lookupAssoc (insertAssoc m k v) k2 = lookupAssoc m k2 := by
intro m k k2 v hne
have hne2 : ¬k = k2 := fun h => hne h.symm
induction m with
| nil => simp [insertAssoc, lookupAssoc, hne2]
| cons q rest ih =>
  cases q with
  | mk k3 v3 =>
    by_cases h : k3 = k
    · subst h
      simp [insertAssoc, lookupAssoc, hne2]
    · simp [insertAssoc, h, lookupAssoc, ih]

theorem buildUplinkMapGo_key_mono :
    ∀ (es : List StpRootEntry) (acc m : List (Int × String)) (k : Int),
      (lookupAssoc acc k).isSome = true →
      buildUplinkMapGo acc es = Except.ok m →
      (lookupAssoc m k).isSome = true := by
intro es
induction es with
| nil =>
  intro acc m k hk hm
  simp [buildUplinkMapGo] at hm
  rw [← hm]; exact hk
| cons r rest ih =>
  intro acc m k hk hm
  cases hx : extractVlanFromLabel r.vlanLabel with
  | error e2 => rw [buildUplinkMapGo, hx] at hm; cases hm
  | ok v0 =>
    simp only [buildUplinkMapGo, hx] at hm
    by_cases hup : pyStrip (long_int_name r.rootPort) ≠ ""
    · rw [if_pos hup] at hm
      refine ih _ m k ?_ hm
      by_cases hkk : k = v0
      · subst hkk; rw [lookupAssoc_insert_self]; rfl
      · rw [lookupAssoc_insert_ne acc v0 k _ hkk]; exact hk
    · rw [if_neg hup] at hm
      exact ih _ m k hk hm

theorem buildUplinkMapGo_complete :
    ∀ (es : List StpRootEntry) (acc m : List (Int × String))
      (r : StpRootEntry) (v : Int),
      r ∈ es → extractVlanFromLabel r.vlanLabel = Except.ok v →
      pyStrip (long_int_name r.rootPort) ≠ "" →
      buildUplinkMapGo acc es = Except.ok m →
      (lookupAssoc m v).isSome = true := by
intro es
induction es with
| nil => intro acc m r v hr; simp at hr
| cons r0 rest ih =>
  intro acc m r v hr hx hup hm
  cases hx0 : extractVlanFromLabel r0.vlanLabel with
  | error e2 => rw [buildUplinkMapGo, hx0] at hm; cases hm
  | ok v0 =>
    simp only [buildUplinkMapGo, hx0] at hm
    rcases List.mem_cons.mp hr with heq | hmem
    · subst heq
      rw [hx0] at hx
      have hv : v0 = v := by injection hx
      subst hv
      rw [if_pos hup] at hm
      refine buildUplinkMapGo_key_mono rest _ m v0 ?_ hm
      rw [lookupAssoc_insert_self]; rfl
    · by_cases hup0 : pyStrip (long_int_name r0.rootPort) ≠ ""
      · rw [if_pos hup0] at hm
        exact ih _ m r v hmem hx hup hm
      · rw [if_neg hup0] at hm
        exact ih _ m r v hmem hx hup hm

theorem strJoin_rows (macs : List MacEntry) :
    strJoin ((macs.map rowLine).map (fun l => l ++ "\n"))
      = strJoin (macs.map macRow) := by
induction macs with
| nil => rfl
| cons e rest ih =>
  simp only [List.map_cons, strJoin, ih]
  have hrow : rowLine e ++ "\n" = macRow e := by
    rw [macRow, rowLine, ljust, ljust]
    simp [strAppend_assoc]
  rw [hrow]

/-- C4: for every sequence of parsed MAC-table records, target VLAN set
and uplink map, the filter keeps exactly the original (unnormalized)
records whose vlan field parses as an integer in the target set and whose
normalized interface differs (case-insensitively, in canonical form) from
that vlan's uplink interface (empty string when the vlan has no uplink),
preserving the original order and silently skipping records with a
non-numeric vlan field; on the specification's concrete example the
result is exactly the single `("10","dddd.eeee.ffff","Fa0/2")` record. -/
theorem c4_mac_filter :
    (∀ (fsm : List MacEntry) (vlan_set : List Int)
        (exclude_ports : List (Int × String)),
      filterMacs fsm vlan_set exclude_ports
        = fsm.filter (macKeepSpec vlan_set exclude_ports)) ∧
    filterMacs
      [⟨"10", "aaaa.bbbb.cccc", "Gi1/0/1"⟩,
       ⟨"10", "dddd.eeee.ffff", "Fa0/2"⟩,
       ⟨"20", "1111.2222.3333", "Fa0/3"⟩]
      [10] [(10, "gigabitethernet1/0/1")]
      = [⟨"10", "dddd.eeee.ffff", "Fa0/2"⟩] := by
constructor
· intro fsm vlan_set exclude_ports
  simpa [filterMacs] using
    filterMacsGo_eq_filter vlan_set exclude_ports fsm []
· decide

/-- C8: the MAC-table filter is deterministic and side-effect free:
running it twice on the same parsed records, target VLAN set and uplink
map yields identical output, and (the inputs being immutable values in
this embedding) re-filtering its own output changes nothing. -/
theorem c8_filter_pure :
    ∀ (fsm : List MacEntry) (vlan_set : List Int)
        (exclude_ports : List (Int × String)),
      filterMacs fsm vlan_set exclude_ports
          = filterMacs fsm vlan_set exclude_ports ∧
      filterMacs (filterMacs fsm vlan_set exclude_ports) vlan_set
          exclude_ports
        = filterMacs fsm vlan_set exclude_ports := by
intro fsm vlan_set exclude_ports
have hchar : ∀ l : List MacEntry, filterMacs l vlan_set exclude_ports
    = l.filter (macKeepSpec vlan_set exclude_ports) := by
  intro l
  simpa [filterMacs] using filterMacsGo_eq_filter vlan_set exclude_ports l []
have hand : (fun a => macKeepSpec vlan_set exclude_ports a
    && macKeepSpec vlan_set exclude_ports a)
    = macKeepSpec vlan_set exclude_ports := by
  funext a; exact Bool.and_self _
refine ⟨rfl, ?_⟩
rw [hchar, hchar, List.filter_filter, hand]

/-- C9: if the main session is already connected at launch, `script_main`
raises `ScriptError` before doing any work: the action trace is empty, so
no inventory is loaded, no prompt shown, no output file created, and no
device contacted. -/
theorem c9_connected_guard :
    ∀ env : Env, env.connected = true →
      script_main env = ([], Except.error PyErr.scriptError) := by
intro env h
rw [script_main]
simp [h]

/-- C9 witness: a connected environment with a non-empty inventory. -/
theorem c9_connected_guard_witness :
    script_main ⟨true, [DevBehavior.connectFail "sw1" "boom"], "10"⟩
      = ([], Except.error PyErr.scriptError) :=
c9_connected_guard ⟨true, [DevBehavior.connectFail "sw1" "boom"], "10"⟩ rfl

/-- C10: a device record whose proxy field is present but empty resolves
exactly like one with the field absent: with the global `use_proxy` flag
set, the configured default proxy is substituted in both cases; with the
flag clear, the resolved value stays falsy (no proxy is used) in both
cases; a non-empty per-device proxy is always used as-is. -/
theorem c10_proxy_resolution :
    ∀ (default_proxy s : String),
      resolveProxy none true default_proxy = some default_proxy ∧
      resolveProxy (some "") true default_proxy = some default_proxy ∧
      pyFalsyStr (resolveProxy none false default_proxy) = true ∧
      pyFalsyStr (resolveProxy (some "") false default_proxy) = true ∧
      (s ≠ "" → ∀ use_proxy : Bool,
        resolveProxy (some s) use_proxy default_proxy = some s) := by
intro default_proxy s
refine ⟨by simp [resolveProxy, pyFalsyStr], by simp [resolveProxy, pyFalsyStr],
  by simp [resolveProxy, pyFalsyStr], by simp [resolveProxy, pyFalsyStr], ?_⟩
intro hs use_proxy
have hb : (s == "") = false := by simpa using hs
simp [resolveProxy, pyFalsyStr, hb]

/-- C10 witness: concrete default proxy and non-empty per-device proxy. -/
theorem c10_proxy_resolution_witness :
    resolveProxy none true "default-jumpbox" = some "default-jumpbox" ∧
    resolveProxy (some "jumphost1") false "default-jumpbox"
      = some "jumphost1" :=
⟨(c10_proxy_resolution "default-jumpbox" "jumphost1").1,
 (c10_proxy_resolution "default-jumpbox" "jumphost1").2.2.2.2 (by decide)
   false⟩

/-- C2 counterexample: on a device whose spanning-tree vlan label makes
the extraction raise, automation mode is entered (`start_cisco_session`
runs) but the collector propagates the error without ever running
`end_cisco_session`, so the claim that automation mode is always exited
once entered is false at this concrete input. -/
theorem c2_automation_restored_cex :
    Event.startSession ∈ (per_device_work devC2bad [10]).1 ∧
    Event.endSession ∉ (per_device_work devC2bad [10]).1 ∧
    (per_device_work devC2bad [10]).2 = Except.error PyErr.indexError := by
decide

/-- C2 (amended): automation mode is exited (as the final session
interaction) on every collector execution that returns normally; but when
an internal error is raised between entering and exiting automation mode,
the error propagates with automation mode entered and never exited. -/
theorem c2_automation_restored :
    ∀ (dev : Device) (vlan_set : List Int),
      (exceptOk (per_device_work dev vlan_set).2 = true →
        (per_device_work dev vlan_set).1.getLast? = some Event.endSession) ∧
      (exceptOk (per_device_work dev vlan_set).2 = false →
        Event.startSession ∈ (per_device_work dev vlan_set).1 ∧
        Event.endSession ∉ (per_device_work dev vlan_set).1) := by
intro dev vlan_set
cases hb : buildUplinkMap dev.stpRecords with
| error e =>
  have hpd : per_device_work dev vlan_set
      = ([Event.startSession, Event.sendCmd stpCmd], Except.error e) := by
    simp only [per_device_work, hb]
  rw [hpd]
  refine ⟨fun h => by simp [exceptOk] at h, fun _ => ⟨?_, ?_⟩⟩
  · show Event.startSession ∈ [Event.startSession, Event.sendCmd stpCmd]
    decide
  · show Event.endSession ∉ [Event.startSession, Event.sendCmd stpCmd]
    decide
| ok exclude_ports =>
  by_cases hc : dev.os = "IOS" ∧ dev.macPrimary.length = 1
  · have hpd : per_device_work dev vlan_set
        = ([Event.startSession, Event.sendCmd stpCmd,
            Event.sendCmd macCmdPrimary, Event.sendCmd macCmdFallback,
            Event.endSession],
           Except.ok (dev.hostname,
             filterMacs dev.macFallback vlan_set exclude_ports)) := by
      simp only [per_device_work, hb]
      rw [if_pos hc]
    rw [hpd]
    refine ⟨fun _ => rfl, fun h => by simp [exceptOk] at h⟩
  · have hpd : per_device_work dev vlan_set
        = ([Event.startSession, Event.sendCmd stpCmd,
            Event.sendCmd macCmdPrimary, Event.endSession],
           Except.ok (dev.hostname,
             filterMacs dev.macPrimary vlan_set exclude_ports)) := by
      simp only [per_device_work, hb]
      rw [if_neg hc]
    rw [hpd]
    refine ⟨fun _ => rfl, fun h => by simp [exceptOk] at h⟩

/-- C2 witness: a healthy device exits automation mode last; a device
with a malformed spanning-tree label leaves it entered but never exited. -/
theorem c2_automation_restored_witness :
    (per_device_work devC2ok [20]).1.getLast? = some Event.endSession ∧
    (Event.startSession ∈ (per_device_work devC2bad [20]).1 ∧
      Event.endSession ∉ (per_device_work devC2bad [20]).1) :=
⟨(c2_automation_restored devC2ok [20]).1 (by decide),
 (c2_automation_restored devC2bad [20]).2 (by decide)⟩

/-- C3 counterexample: an IOS device whose primary MAC-table parse yields
zero records ("at most a single record") gets no fallback command at all
(the code tests for exactly one record), so the claim that the fallback is
reissued whenever the primary parse has at most one record is false. -/
theorem c3_fallback_retry_cex :
    devC3empty.os = "IOS" ∧ devC3empty.macPrimary.length ≤ 1 ∧
    (per_device_work devC3empty [10]).1.count (Event.sendCmd macCmdFallback)
      = 0 := by
decide

/-- C3 (amended): the collector issues the legacy fallback command exactly
once when the device's OS family is IOS and the primary MAC-table parse
produced exactly one record (and the uplink resolver raised nothing), and
never otherwise; in particular the fallback is never issued twice. -/
theorem c3_fallback_retry :
    ∀ (dev : Device) (vlan_set : List Int),
      ((per_device_work dev vlan_set).1.count (Event.sendCmd macCmdFallback))
        = (if wantsFallback dev then 1 else 0) ∧
      ((per_device_work dev vlan_set).1.count (Event.sendCmd macCmdFallback))
        ≤ 1 := by
intro dev vlan_set
have hmain : ((per_device_work dev vlan_set).1.count
      (Event.sendCmd macCmdFallback))
    = (if wantsFallback dev then 1 else 0) := by
  cases hb : buildUplinkMap dev.stpRecords with
  | error e =>
    have hpd : per_device_work dev vlan_set
        = ([Event.startSession, Event.sendCmd stpCmd], Except.error e) := by
      simp only [per_device_work, hb]
    have hwf : wantsFallback dev = false := by
      simp [wantsFallback, hb, exceptOk]
    rw [hpd, hwf]
    show List.count (Event.sendCmd macCmdFallback)
        [Event.startSession, Event.sendCmd stpCmd] = ite (false = true) 1 0
    decide
  | ok exclude_ports =>
    by_cases hc : dev.os = "IOS" ∧ dev.macPrimary.length = 1
    · have hpd : per_device_work dev vlan_set
          = ([Event.startSession, Event.sendCmd stpCmd,
              Event.sendCmd macCmdPrimary, Event.sendCmd macCmdFallback,
              Event.endSession],
             Except.ok (dev.hostname,
               filterMacs dev.macFallback vlan_set exclude_ports)) := by
        simp only [per_device_work, hb]
        rw [if_pos hc]
      have hwf : wantsFallback dev = true := by
        simp [wantsFallback, hb, exceptOk, hc.1, hc.2]
      rw [hpd, hwf]
      show List.count (Event.sendCmd macCmdFallback)
          [Event.startSession, Event.sendCmd stpCmd,
            Event.sendCmd macCmdPrimary, Event.sendCmd macCmdFallback,
            Event.endSession] = ite (true = true) 1 0
      decide
    · have hpd : per_device_work dev vlan_set
          = ([Event.startSession, Event.sendCmd stpCmd,
              Event.sendCmd macCmdPrimary, Event.endSession],
             Except.ok (dev.hostname,
               filterMacs dev.macPrimary vlan_set exclude_ports)) := by
        simp only [per_device_work, hb]
        rw [if_neg hc]
      have hwf : wantsFallback dev = false := by
        by_cases h1 : dev.os = "IOS"
        · have h2 : dev.macPrimary.length ≠ 1 := fun hl => hc ⟨h1, hl⟩
          have h3 : (dev.macPrimary.length == 1) = false := by simpa using h2
          simp [wantsFallback, h3]
        · have h3 : (dev.os == "IOS") = false := by simpa using h1
          simp [wantsFallback, h3]
      rw [hpd, hwf]
      show List.count (Event.sendCmd macCmdFallback)
          [Event.startSession, Event.sendCmd stpCmd,
            Event.sendCmd macCmdPrimary, Event.endSession]
          = ite (false = true) 1 0
      decide
refine ⟨hmain, ?_⟩
rw [hmain]
by_cases hw : wantsFallback dev = true
· simp [hw]
· simp [hw]

/-- C5 counterexample: a spanning-tree record whose vlan label contains no
digits makes the extraction raise `IndexError` (not a
`MalformedVlanLabelError`, which does not exist in the code), and the
failure is not scoped to the record: the collector propagates it without
restoring automation mode and the whole run aborts. -/
theorem c5_vlan_label_cex :
    extractVlanFromLabel "garbled" = Except.error PyErr.indexError ∧
    (per_device_work devC5bad [10]).2 = Except.error PyErr.indexError ∧
    Event.endSession ∉ (per_device_work devC5bad [10]).1 ∧
    (runBatch [DevBehavior.works devC5bad] [10] "10").2
      = Except.error PyErr.indexError := by
decide

/-- C5 (amended): a spanning-tree record whose vlan label yields no
segment after its first `"N"` raises `IndexError`, and a non-numeric
segment raises `ValueError`; whenever any record of the device's
spanning-tree output fails extraction (all earlier records extracting
fine), the error is not scoped to that record: the collector returns it,
automation mode is never exited, and a batch containing the device
aborts. -/
theorem c5_vlan_label :
    ∀ (pre post : List StpRootEntry) (e : StpRootEntry) (err : PyErr)
      (dev : Device) (vlan_set : List Int) (num_string : String),
      (∀ r ∈ pre, exceptOk (extractVlanFromLabel r.vlanLabel) = true) →
      extractVlanFromLabel e.vlanLabel = Except.error err →
      dev.stpRecords = pre ++ e :: post →
      (per_device_work dev vlan_set).2 = Except.error err ∧
      Event.endSession ∉ (per_device_work dev vlan_set).1 ∧
      (runBatch [DevBehavior.works dev] vlan_set num_string).2
        = Except.error err := by
intro pre post e err dev vlan_set num_string hall he hrec
have hbuild : buildUplinkMap dev.stpRecords = Except.error err := by
  rw [buildUplinkMap, hrec]
  exact buildUplinkMapGo_error err pre e post [] hall he
have hpd : per_device_work dev vlan_set
    = ([Event.startSession, Event.sendCmd stpCmd], Except.error err) := by
  rw [per_device_work, hbuild]
refine ⟨by rw [hpd], ?_, ?_⟩
· rw [hpd]
  show Event.endSession ∉ [Event.startSession, Event.sendCmd stpCmd]
  decide
· simp [runBatch, runBatchGo, hpd]

/-- C5 witness: a device whose second spanning-tree record has a
non-numeric segment after `"N"` aborts the collector and the run with
`ValueError`. -/
theorem c5_vlan_label_witness :
    (per_device_work devC5w [10]).2 = Except.error PyErr.valueError ∧
    Event.endSession ∉ (per_device_work devC5w [10]).1 ∧
    (runBatch [DevBehavior.works devC5w] [10] "10").2
      = Except.error PyErr.valueError :=
c5_vlan_label [⟨"VLAN0010", "Gi1/0/1"⟩] [] ⟨"VLANxyz", ""⟩ PyErr.valueError
  devC5w [10] "10" (by decide) (by decide) rfl

/-- C1 counterexample: a device whose spanning-tree output carries a
malformed vlan label raises an uncaught `IndexError` inside the loop, so
the batch aborts with no failure-log line for that device and the second
device is never attempted — the run does not complete over the whole
inventory. -/
theorem c1_loop_isolation_cex :
    (runBatch [DevBehavior.works devC1bad,
        DevBehavior.connectFail "sw2" "no route to host"] [10] "10").2
      = Except.error PyErr.indexError ∧
    (runBatch [DevBehavior.works devC1bad,
        DevBehavior.connectFail "sw2" "no route to host"] [10] "10").1
      = [Action.connect "badsw"] := by
decide

/-- C1 (amended): for every inventory in which no connected device's
collector run raises an internal data error, the batch loop never aborts:
each device that fails (connect failure, interaction failure, unsupported
OS) appends exactly one line to the failure log, in inventory order, and
the run completes over the whole inventory.  (An internal data error,
by contrast, aborts the batch, as the counterexample shows.) -/
theorem c1_loop_isolation :
    ∀ (devices : List DevBehavior) (vlan_set : List Int)
        (num_string : String),
      devices.all (behaviorOk vlan_set) = true →
      ∃ report, (runBatch devices vlan_set num_string).2
        = Except.ok (report, devices.filterMap failureLine) := by
intro devices vlan_set num_string hall
refine ⟨reportHeader num_string
  ++ strJoin (devices.map (deviceReport vlan_set)), ?_⟩
rw [runBatch, runBatchGo_ok vlan_set devices hall]
simp

/-- C1 witness: two failing devices and one healthy device yield a
completed run with one failure-log line per failing device. -/
theorem c1_loop_isolation_witness :
    ∃ report,
      (runBatch [DevBehavior.connectFail "sw1" " connection refused ",
        DevBehavior.unsupportedOS "sw2" "ASA OS not supported",
        DevBehavior.works devC1ok] [10] "10").2
      = Except.ok (report,
          [DevBehavior.connectFail "sw1" " connection refused ",
           DevBehavior.unsupportedOS "sw2" "ASA OS not supported",
           DevBehavior.works devC1ok].filterMap failureLine) :=
c1_loop_isolation
  [DevBehavior.connectFail "sw1" " connection refused ",
   DevBehavior.unsupportedOS "sw2" "ASA OS not supported",
   DevBehavior.works devC1ok] [10] "10" (by decide)

/-- C6 counterexample: the report section the code writes for a device
with one match differs from the section the claim describes (a single
blank separator line): the code's `write("\n\n")` after the last row's
newline yields two blank lines, not one. -/
theorem c6_report_format_cex :
    deviceSection "sw1" [⟨"10", "aaaa.bbbb.cccc", "Fa0/2"⟩]
      ≠ strJoin ((sectionLinesClaim "sw1"
          [⟨"10", "aaaa.bbbb.cccc", "Fa0/2"⟩]).map (fun l => l ++ "\n")) := by
decide

/-- C6 (amended): the report begins with the header line
`MAC ADDRESS SEARCH IN VLANS: <range-string>` followed by a blank line;
each device with a non-empty result contributes exactly one section — a
device header line, the three-column table header, one row per matched
entry in order with the first two columns left-justified to widths 8 and
20 and the last column unpadded, then two blank separator lines — and the
report file is flushed after each such device (the `flush` action in the
trace); devices with empty results and failed devices contribute
nothing. -/
theorem c6_report_format :
    (∀ (devices : List DevBehavior) (vlan_set : List Int)
        (num_string : String),
      devices.all (behaviorOk vlan_set) = true →
      runBatch devices vlan_set num_string
        = (listJoin (devices.map (deviceActs vlan_set)),
           Except.ok
             (reportHeader num_string
               ++ strJoin (devices.map (deviceReport vlan_set)),
              devices.filterMap failureLine))) ∧
    (∀ num_string, reportHeader num_string
      = "MAC ADDRESS SEARCH IN VLANS: " ++ num_string ++ "\n\n") ∧
    (∀ (h : String) (macs : List MacEntry),
      deviceSection h macs
        = strJoin ((sectionLines h macs).map (fun l => l ++ "\n"))) := by
refine ⟨?_, fun _ => rfl, ?_⟩
· intro devices vlan_set num_string hall
  rw [runBatch, runBatchGo_ok vlan_set devices hall]
  simp
· intro h macs
  have hhd : (" ###\n" : String) = " ###" ++ "\n" := rfl
  have hnn : ("\n\n" : String) = "\n" ++ "\n" := rfl
  simp only [deviceSection, sectionLines, List.map_cons, List.map_append,
    strJoin, strJoin_append, strJoin_rows, hhd, hnn,
    strAppend_empty_left, strAppend_empty_right, strAppend_assoc]

/-- C6 witness: the full batch characterization at one healthy device
with one match. -/
theorem c6_report_format_witness :
    runBatch [DevBehavior.works devC6] [10] "10"
      = (listJoin ([DevBehavior.works devC6].map (deviceActs [10])),
         Except.ok
           (reportHeader "10"
             ++ strJoin ([DevBehavior.works devC6].map (deviceReport [10])),
            [DevBehavior.works devC6].filterMap failureLine)) :=
c6_report_format.1 [DevBehavior.works devC6] [10] "10" (by decide)

/-- C7: the uplink resolver is sound (every map entry has a non-empty
normalized root port coming from some record whose extracted vlan is its
key), holds at most one uplink per VLAN (no duplicate keys), is complete
(every record with a successfully extracted vlan and non-empty normalized
root port leaves its vlan present in the map), resolves duplicate vlans
last-write-wins, and on the specification's example produces
`{10 : "gigabitethernet1/0/1"}`. -/
theorem c7_uplink_resolver :
    (∀ (es : List StpRootEntry) (m : List (Int × String)),
      buildUplinkMap es = Except.ok m →
      (∀ v u, (v, u) ∈ m →
        u ≠ "" ∧ ∃ r ∈ es, extractVlanFromLabel r.vlanLabel = Except.ok v ∧
          pyStrip (long_int_name r.rootPort) = u) ∧
      (m.map Prod.fst).Nodup ∧
      (∀ r ∈ es, ∀ v, extractVlanFromLabel r.vlanLabel = Except.ok v →
        pyStrip (long_int_name r.rootPort) ≠ "" →
        (lookupAssoc m v).isSome = true)) ∧
    (∀ (es : List StpRootEntry) (e : StpRootEntry) (v : Int) (u : String)
        (m2 : List (Int × String)),
      extractVlanFromLabel e.vlanLabel = Except.ok v →
      pyStrip (long_int_name e.rootPort) = u → u ≠ "" →
      buildUplinkMap (es ++ [e]) = Except.ok m2 →
      lookupAssoc m2 v = some u) ∧
    buildUplinkMap [⟨"VLAN0010", "Gi1/0/1"⟩]
      = Except.ok [(10, "gigabitethernet1/0/1")] := by
refine ⟨?_, ?_, by decide⟩
· intro es m hm
  refine ⟨?_, ?_, ?_⟩
  · intro v u hvu
    rcases buildUplinkMapGo_sound es [] m hm v u hvu with hin | hin
    · simp at hin
    · exact hin
  · exact buildUplinkMapGo_nodup es [] m (by simp) hm
  · intro r hr v hx hup
    exact buildUplinkMapGo_complete es [] m r v hr hx hup hm
· intro es e v u m2 hx hs hne hm
  rw [buildUplinkMap, buildUplinkMapGo_append [e] es []] at hm
  cases hmid : buildUplinkMapGo [] es with
  | error e2 => rw [hmid] at hm; cases hm
  | ok mid =>
    rw [hmid] at hm
    simp only [buildUplinkMapGo, hx, hs] at hm
    rw [if_pos hne] at hm
    have hm2 : insertAssoc mid v u = m2 := by injection hm
    rw [← hm2]
    exact lookupAssoc_insert_self mid v u

/-- C7 witness: duplicate vlan labels resolve last-write-wins. -/
theorem c7_uplink_resolver_witness :
    lookupAssoc [(10, "fastethernet0/2")] 10 = some "fastethernet0/2" :=
c7_uplink_resolver.2.1 [⟨"VLAN0010", "Gi1/0/1"⟩] ⟨"VLAN0010", "Fa0/2"⟩ 10
  "fastethernet0/2" [(10, "fastethernet0/2")] (by decide) (by decide)
  (by decide) (by decide)

end FindMacs
